import Mathlib

/-!
Verification of the ClawBot container-orchestrator core: a shallow embedding
of admin/config.py, admin/docker_manager.py, the identity and reconciliation
logic of admin/main.py, and admin/watchdog.py, together with theorems about
the lifecycle manager, the identity resolver, the reconciler and the watchdog.

Modelling conventions:
- Python dictionaries become association lists over String keys; dict.get is
  modelled by lookup with a default.  Dictionary fields whose Python value is
  None are omitted from the association list (dict.get then yields the same
  default either way in every code path embedded here).
- The Docker runtime is external state: a list of container records.  Calls
  that the runtime can refuse (containers.run and the thin start, stop,
  restart, remove operations) take an explicit api_ok flag for the
  transport-level APIError outcome; a container start issued on an existing
  container in the idempotent create path is modelled as succeeding.
- Fresh container ids and the creation timestamp are produced by the
  environment and are passed in as arguments.
- Timestamp bookkeeping (last_health_check, created_at fallbacks to the
  current time) is irrelevant to every claim and is not modelled.
-/

/-- dict_get models the Python expression m.get(k, d) on a string dictionary. -/
def dict_get (m : List (String × String)) (k : String) (d : String) : String :=
  (List.lookup k m).getD d

/-- py_truthy models Python truthiness of an optional string: None and the
empty string are falsy. -/
def py_truthy (o : Option String) : Bool :=
  !(o.getD "").isEmpty

/-- split_on_go is the fuel-driven scanner behind py_split: left-to-right,
non-overlapping occurrences of the separator, exactly as Python str.split
with a nonempty separator.  The fuel dominates the character count, so the
fallback second branch is never reached on the arguments py_split passes. -/
def split_on_go (sep : List Char) : Nat → List Char → List Char → List (List Char)
  | _, [], acc => [acc.reverse]
  | 0, rest, acc => [acc.reverse ++ rest]
  | fuel + 1, c :: rest, acc =>
      if sep.isPrefixOf (c :: rest) then
        acc.reverse :: split_on_go sep fuel ((c :: rest).drop sep.length) []
      else split_on_go sep fuel rest (c :: acc)

/-- py_split models Python s.split(sub) for a nonempty separator, on the
character-list view of strings (kept executable down to the kernel). -/
def py_split (s sub : String) : List String :=
  (split_on_go sub.data (s.data.length + 1) s.data []).map (fun l => String.mk l)

/-- py_strip models Python s.strip(): leading and trailing whitespace
removed. -/
def py_strip (s : String) : String :=
  String.mk (((s.data.dropWhile Char.isWhitespace).reverse.dropWhile
    Char.isWhitespace).reverse)

/-- str_contains models the Python substring test sub in s, for a nonempty
pattern sub. -/
def str_contains (s sub : String) : Bool :=
  (py_split s sub).length != 1

/- ===== admin/config.py ===== -/

/-- MAX_RESTART_ATTEMPTS is the watchdog escalation bound (config.py). -/
def MAX_RESTART_ATTEMPTS : Nat := 3

/-- HEALTH_CHECK_INTERVAL is the watchdog poll interval in seconds. -/
def HEALTH_CHECK_INTERVAL : Nat := 60

/-- BASE_PORT is the first host port handed to a container. -/
def BASE_PORT : Nat := 9000

/-- MAX_USERS bounds the number of port slots. -/
def MAX_USERS : Nat := 6

/-- PlanConfig is one entry of the static plan table.  cpu_limit is the
Python float CPU share, embedded exactly as a rational. -/
structure PlanConfig where
  memory_limit : String
  cpu_limit : ℚ
  max_daily_messages : Nat
  features : List String
  price_usd : Nat
deriving DecidableEq

/-- FREE_PLAN is the free tier entry of the plan table. -/
def FREE_PLAN : PlanConfig :=
  { memory_limit := "1536m", cpu_limit := 1/2, max_daily_messages := 50,
    features := ["basic_chat"], price_usd := 0 }

/-- PLANS is the static plan table of config.py. -/
def PLANS : List (String × PlanConfig) :=
  [("free", FREE_PLAN),
   ("starter",
    { memory_limit := "2g", cpu_limit := 1, max_daily_messages := 500,
      features := ["basic_chat", "github-ghost"], price_usd := 30 }),
   ("pro",
    { memory_limit := "4g", cpu_limit := 2, max_daily_messages := 5000,
      features := ["basic_chat", "github-ghost", "google-search-console",
                   "google-analytics", "custom_rules"], price_usd := 50 })]

/-- plan_config_of models PLANS.get(plan, PLANS["free"]) in create_container. -/
def plan_config_of (plan : String) : PlanConfig :=
  (List.lookup plan PLANS).getD FREE_PLAN

/-- heap_sizes is the per-plan Node heap hint table of create_container. -/
def heap_sizes : List (String × String) :=
  [("free", "768"), ("starter", "1536"), ("pro", "3584")]

/- ===== Docker runtime model ===== -/

/-- DockerContainer is one runtime container as the orchestrator sees it:
name, id, process status, declared health, labels, environment, resource
limits and the host port bound to 8080/tcp. -/
structure DockerContainer where
  name : String
  cid : String
  status : String
  health : String
  labels : List (String × String)
  env : List (String × String)
  mem_limit : String
  cpu_quota : Int
  host_port : Option Nat
deriving DecidableEq

/-- DockerState is the list of containers the runtime currently holds. -/
abbrev DockerState := List DockerContainer

/-- get_container_name models DockerManager._get_container_name, with the
default CONTAINER_PREFIX of "clawbot". -/
def get_container_name (user_identifier : String) : String :=
  "clawbot_" ++ user_identifier

/-- docker_get models client.containers.get by name: the runtime keeps names
unique, so the first match is the container. -/
def docker_get (st : DockerState) (nm : String) : Option DockerContainer :=
  st.find? (fun c => c.name == nm)

/-- docker_set_status models a status change applied to the named container. -/
def docker_set_status (st : DockerState) (nm : String) (s : String) : DockerState :=
  st.map (fun c => if c.name == nm then { c with status := s } else c)

/- ===== connections dictionaries ===== -/

/-- ConnRecord is one provider credential dictionary. -/
abbrev ConnRecord := List (String × String)

/-- Connections is the generic connections dictionary keyed by provider name. -/
abbrev Connections := List (String × ConnRecord)

/-- conn_has models the Python test p in connections. -/
def conn_has (cs : Connections) (p : String) : Bool :=
  (List.lookup p cs).isSome

/-- json_quote renders a JSON string literal (values embedded here carry no
characters needing escapes). -/
def json_quote (s : String) : String := "\"" ++ s ++ "\""

/-- json_obj renders a flat string dictionary the way json.dumps does. -/
def json_obj (fields : List (String × String)) : String :=
  "\x7b" ++ String.intercalate ", "
    (fields.map (fun kv => json_quote kv.1 ++ ": " ++ json_quote kv.2)) ++ "\x7d"

/-- json_dumps_connections renders the connections dictionary the way
json.dumps does. -/
def json_dumps_connections (cs : Connections) : String :=
  "\x7b" ++ String.intercalate ", "
    (cs.map (fun pv => json_quote pv.1 ++ ": " ++ json_obj pv.2)) ++ "\x7d"

/-- skills_of models the enabled-skill derivation of create_container:
connected providers expand the set, no connections defaults to coding. -/
def skills_of (cs : Connections) : List String :=
  if cs.isEmpty then ["coding"]
  else
    (if conn_has cs "github" then ["coding", "github-ghost"] else []) ++
    (if conn_has cs "google" then ["google-analytics"] else [])

/-- container_env models the environment dictionary built by
create_container.  The settings fallbacks GEMINI_API_KEY, GOOGLE_CLIENT_ID
and GOOGLE_CLIENT_SECRET default to unset and are rendered as the empty
string. -/
def container_env (uid plan telegram_token : String) (gemini_key : Option String)
    (cs : Connections) : List (String × String) :=
  let skills := skills_of cs
  let connections_json := if cs.isEmpty then "\x7b\x7d" else json_dumps_connections cs
  [("OPENCLAW_WORKSPACE_DIR", "/data/workspace"),
   ("OPENCLAW_STATE_DIR", "/data/.openclaw"),
   ("OPENCLAW_PLUGINS_DIR", "/data/workspace/plugins"),
   ("OPENCLAW_SKILLS_DIR", "/data/workspace/plugins"),
   ("OPENCLAW_SKILLS_ENABLED",
     if skills.isEmpty then "*" else String.intercalate "," skills),
   ("TELEGRAM_BOT_TOKEN", telegram_token),
   ("GEMINI_API_KEY", gemini_key.getD ""),
   ("OPENCLAW_MODEL", "google/gemini-3-pro-preview"),
   ("USER_IDENTIFIER", uid),
   ("PLAN", plan),
   ("NODE_OPTIONS", "--max-old-space-size=" ++ dict_get heap_sizes plan "768"),
   ("OPENCLAW_CONNECTIONS", connections_json),
   ("GOOGLE_CLIENT_ID", ""),
   ("GOOGLE_CLIENT_SECRET", "")] ++
  (match List.lookup "github" cs with
   | some gh =>
       [("GITHUB_TOKEN", dict_get gh "access_token" ""),
        ("GITHUB_ID", dict_get gh "provider_account_id" uid)]
   | none => [("GITHUB_ID", uid)])

/-- new_container is the runtime container requested by containers.run in
create_container: deterministic name, owner labels, derived environment, and
plan-derived resource limits (Python int() truncation of the positive CPU
product is floor). -/
def new_container (now fresh_cid user_identifier plan : String) (port : Nat)
    (telegram_token : String) (gemini_key : Option String)
    (connections : Connections) : DockerContainer :=
  let pc := plan_config_of plan
  { name := get_container_name user_identifier, cid := fresh_cid,
    status := "running", health := "unknown",
    labels := [("clawbot.user", user_identifier), ("clawbot.plan", plan),
               ("clawbot.created", now)],
    env := container_env user_identifier plan telegram_token gemini_key connections,
    mem_limit := pc.memory_limit,
    cpu_quota := Rat.floor (pc.cpu_limit * 100000),
    host_port := some port }

/-- CreateResult is the dictionary returned by DockerManager.create_container. -/
structure CreateResult where
  success : Bool
  container_id : String := ""
  cname : String := ""
  status : String := ""
  message : String := ""
  port : Option Nat := none
  error : String := ""
deriving DecidableEq

/-- create_container models DockerManager.create_container.  The host-side
provisioning steps (_ensure_user_dir, _seed_intelligence, _create_user_config,
_copy_plugins, chown) touch the host filesystem only; the USER.md connections
rewrite they contain is modelled separately as seed_connections_update.  When
the deterministic name already exists the call ensures the container is
running and reports success without creating anything. -/
def create_container (api_ok : Bool) (now fresh_cid : String)
    (user_identifier plan : String) (port : Nat) (telegram_token : String)
    (gemini_key : Option String) (connections : Connections)
    (_custom_rules : Option String) (_enabled_plugins : List String)
    (st : DockerState) : CreateResult × DockerState :=
  let nm := get_container_name user_identifier
  match docker_get st nm with
  | some existing =>
      let st' := if existing.status == "running" then st
                 else docker_set_status st nm "running"
      ({ success := true, container_id := existing.cid, cname := nm,
         status := "running",
         message := "Container already exists, ensured running." }, st')
  | none =>
      if api_ok then
        let c := new_container now fresh_cid user_identifier plan port
          telegram_token gemini_key connections
        ({ success := true, container_id := fresh_cid, cname := nm,
           status := "running", port := some port }, st ++ [c])
      else
        ({ success := false, error := "APIError" }, st)

/- ===== USER.md connections section (_seed_intelligence) ===== -/

/-- active_connections_marker is the section heading used to delimit the
connections addendum in USER.md. -/
def active_connections_marker : String := "## Active Connections"

/-- connection_lines renders the bullet list of linked providers. -/
def connection_lines (cs : Connections) : List String :=
  (if conn_has cs "google"
     then ["- ✅ Google Analytics (Active: Session authenticated via environment)"]
     else []) ++
  (if conn_has cs "github"
     then ["- ✅ GitHub (Active: Authenticated via environment)"]
     else [])

/-- seed_connections_update models the Active Connections rewrite at the end
of _seed_intelligence, acting on the current text of USER.md: when a
connections dictionary is passed, everything before the first section marker
is kept (stripped), the remainder of the file is dropped, and a freshly
rendered section is appended when at least one known provider is linked. -/
def seed_connections_update (cs : Connections) (content : String) : String :=
  if cs.isEmpty then content
  else
    let parts := py_split content active_connections_marker
    let base := if parts.length != 1 then py_strip (parts.headD "") else content
    let new_lines := connection_lines cs
    if new_lines.isEmpty then base
    else base ++ "\n\n" ++ active_connections_marker ++ "\n" ++
         String.intercalate "\n" new_lines ++ "\n"

/- ===== thin container operations (docker_manager.py) ===== -/

/-- OpResult is the small result dictionary of the thin container operations. -/
structure OpResult where
  success : Bool
  status : String := ""
  error : String := ""
deriving DecidableEq

/-- start_container models DockerManager.start_container. -/
def start_container (api_ok : Bool) (uid : String) (st : DockerState) :
    OpResult × DockerState :=
  let nm := get_container_name uid
  match docker_get st nm with
  | none => ({ success := false, error := "Container not found" }, st)
  | some _ =>
      if api_ok then ({ success := true, status := "running" }, docker_set_status st nm "running")
      else ({ success := false, error := "APIError" }, st)

/-- stop_container models DockerManager.stop_container. -/
def stop_container (api_ok : Bool) (uid : String) (st : DockerState) :
    OpResult × DockerState :=
  let nm := get_container_name uid
  match docker_get st nm with
  | none => ({ success := false, error := "Container not found" }, st)
  | some _ =>
      if api_ok then ({ success := true, status := "stopped" }, docker_set_status st nm "exited")
      else ({ success := false, error := "APIError" }, st)

/-- restart_container models DockerManager.restart_container. -/
def restart_container (api_ok : Bool) (uid : String) (st : DockerState) :
    OpResult × DockerState :=
  let nm := get_container_name uid
  match docker_get st nm with
  | none => ({ success := false, error := "Container not found" }, st)
  | some _ =>
      if api_ok then ({ success := true, status := "running" }, docker_set_status st nm "running")
      else ({ success := false, error := "APIError" }, st)

/-- delete_container models DockerManager.delete_container: stop, remove, and
optionally wipe host data (host storage is out of the model). -/
def delete_container (api_ok : Bool) (uid : String) (_remove_data : Bool)
    (st : DockerState) : OpResult × DockerState :=
  let nm := get_container_name uid
  match docker_get st nm with
  | none => ({ success := false, error := "Container not found" }, st)
  | some _ =>
      if api_ok then ({ success := true, status := "deleted" }, st.filter (fun c => !(c.name == nm)))
      else ({ success := false, error := "APIError" }, st)

/- ===== persistent store model (models.py) ===== -/

/-- UserRow is one row of the users table. -/
structure UserRow where
  id : Nat
  email : Option String := none
  github_id : String
  github_username : Option String := none
  plan : String := "free"
  telegram_bot_token : String := ""
  gemini_api_key : Option String := none
  container_id : String := ""
  container_name : String := ""
  container_port : Option Nat := none
  container_status : String := "stopped"
  is_active : Bool := true
  restart_count : Nat := 0
  custom_rules : Option String := none
  enabled_plugins : Option String := none
deriving DecidableEq

/-- OAuthRow is one row of the oauth_connections table. -/
structure OAuthRow where
  id : Nat
  user_id : Nat
  provider : String
  provider_account_id : String
  access_token : String := ""
  refresh_token : Option String := none
  token_type : String := "bearer"
  scope : Option String := none
deriving DecidableEq

/-- ContainerEventRow is one append-only row of the container_events table. -/
structure ContainerEventRow where
  user_id : Nat
  container_id : String
  event_type : String
  details : Option String := none
deriving DecidableEq

/-- AlertRow is one row of the alerts table. -/
structure AlertRow where
  severity : String
  message : String
  user_id : Nat
deriving DecidableEq

/-- DB is the persistent store: the four tables plus an autoincrement
counter supplying fresh primary keys. -/
structure DB where
  users : List UserRow
  oauth : List OAuthRow
  events : List ContainerEventRow
  alerts : List AlertRow
  seq : Nat
deriving DecidableEq

/-- db_update_user models committing a mutated ORM user object: the row with
the same primary key is replaced. -/
def db_update_user (db : DB) (u : UserRow) : DB :=
  { db with users := db.users.map (fun v => if v.id == u.id then u else v) }

/- ===== identity resolver (main.py) ===== -/

/-- sanitize_char replaces every character outside [A-Za-z0-9_.-] with a
dash. -/
def sanitize_char (c : Char) : Char :=
  if c.isAlphanum || c == '_' || c == '.' || c == '-' then c else '-'

/-- sanitize_identifier models main.sanitize_identifier: readable at-sign
replacement, character sanitization, and a leading guard character. -/
def sanitize_identifier (identifier : String) : String :=
  let safe := identifier.replace "@" "-at-"
  let safe := String.mk (safe.data.map sanitize_char)
  if safe.startsWith "." || safe.startsWith "-" then "u" ++ safe else safe

/-- get_user_by_identifier models main.get_user_by_identifier: exact legacy
match first, then resolution through any linked OAuth connection. -/
def get_user_by_identifier (db : DB) (identifier : String) : Option UserRow :=
  match db.users.find? (fun u => u.github_id == identifier) with
  | some u => some u
  | none =>
      match db.oauth.find? (fun c => c.provider_account_id == identifier) with
      | some c => db.users.find? (fun u => u.id == c.user_id)
      | none => none

/-- get_next_available_port models main.get_next_available_port: the first
free slot in the fixed port range, none when the range is exhausted. -/
def get_next_available_port (db : DB) : Option Nat :=
  ((List.range MAX_USERS).map (fun k => BASE_PORT + k)).find?
    (fun p => !(db.users.any (fun u => u.container_port == some p)))

/- ===== admin API operations (main.py) ===== -/

/-- UserCreate is the request body of the create endpoint. -/
structure UserCreate where
  github_id : Option String := none
  provider : String := "github"
  provider_id : Option String := none
  access_token : Option String := none
  refresh_token : Option String := none
  github_username : Option String := none
  email : Option String := none
  plan : String := "free"
  telegram_bot_token : String
  gemini_api_key : Option String := none
  github_token : Option String := none
deriving DecidableEq

/-- conn_record_of renders one OAuth row the way create_user serializes it
into the connections dictionary (camel-case token keys; a missing refresh
token is omitted, matching a None value). -/
def conn_record_of (c : OAuthRow) : ConnRecord :=
  [("provider_account_id", c.provider_account_id),
   ("accessToken", c.access_token)] ++
  (match c.refresh_token with
   | some r => [("refreshToken", r)]
   | none => []) ++
  [("token_type", c.token_type)]

/-- connections_of collects the connections dictionary of one user from the
oauth_connections table. -/
def connections_of (rows : List OAuthRow) (uid_pk : Nat) : Connections :=
  (rows.filter (fun c => c.user_id == uid_pk)).map
    (fun c => (c.provider, conn_record_of c))

/-- oauth_upsert models the keyed-on (user, provider) credential upsert used
by create_user: update tokens in place when the row exists, otherwise append
a new row. -/
def oauth_upsert (db : DB) (uid_pk : Nat) (provider provider_id : String)
    (access_token refresh_token : Option String) : DB :=
  match db.oauth.find? (fun c => c.user_id == uid_pk && c.provider == provider) with
  | some _ =>
      { db with oauth := db.oauth.map (fun c =>
          if c.user_id == uid_pk && c.provider == provider then
            { c with
              access_token := match access_token with
                | some t => if t.isEmpty then c.access_token else t
                | none => c.access_token,
              refresh_token := match refresh_token with
                | some r => if r.isEmpty then c.refresh_token else some r
                | none => c.refresh_token }
          else c) }
  | none =>
      { db with
        oauth := db.oauth ++
          [{ id := db.seq, user_id := uid_pk, provider := provider,
             provider_account_id := provider_id,
             access_token := access_token.getD "",
             refresh_token := refresh_token, token_type := "bearer" }],
        seq := db.seq + 1 }

/-- provision_user_container models step 4 of create_user: rebuild the
connections dictionary from the store, idempotently ensure the container
exists and is running, and commit container id and running status only on
success. -/
def provision_user_container (api_ok : Bool) (now fresh_cid : String)
    (user : UserRow) (db : DB) (dock : DockerState) :
    Except (Nat × String) (DB × DockerState × UserRow) :=
  match List.lookup user.plan PLANS with
  | none => Except.error (500, "KeyError: plan")
  | some pc =>
      let connections := connections_of db.oauth user.id
      let (result, dock') := create_container api_ok now fresh_cid
        user.github_id user.plan (user.container_port.getD 0)
        user.telegram_bot_token user.gemini_api_key connections
        none pc.features dock
      if result.success then
        let u' := { user with container_id := result.container_id,
                              container_status := "running" }
        Except.ok (db_update_user db u', dock', u')
      else
        Except.error (500, "Container operation failed: " ++ result.error)

/-- create_user models the create endpoint of main.py: canonical identifier
resolution, upsert of an existing user matched by email or legacy id, plan
validation and port allocation for a new user, then idempotent container
provisioning. -/
def create_user (api_ok : Bool) (now fresh_cid : String) (inp : UserCreate)
    (db : DB) (dock : DockerState) :
    Except (Nat × String) (DB × DockerState × UserRow) :=
  let raw := if py_truthy inp.provider_id then inp.provider_id
             else if py_truthy inp.github_id then inp.github_id
             else inp.email
  if !py_truthy raw then
    Except.error (400, "Missing user identifier (provider_id, github_id, or email)")
  else
    let user_identifier := sanitize_identifier (raw.getD "")
    let by_email := if py_truthy inp.email then
        db.users.find? (fun u => u.email == inp.email)
      else none
    let existing := match by_email with
      | some u => some u
      | none =>
          if py_truthy inp.github_id then
            db.users.find? (fun u => u.github_id == inp.github_id.getD "")
          else none
    match existing with
    | some u =>
        let u' := { u with
          telegram_bot_token := if inp.telegram_bot_token.isEmpty then
              u.telegram_bot_token else inp.telegram_bot_token,
          gemini_api_key := match inp.gemini_api_key with
            | some g => if g.isEmpty then u.gemini_api_key else some g
            | none => u.gemini_api_key }
        let db₁ := db_update_user db u'
        let db₂ := if !inp.provider.isEmpty && py_truthy inp.provider_id then
            oauth_upsert db₁ u'.id inp.provider (inp.provider_id.getD "")
              inp.access_token inp.refresh_token
          else db₁
        provision_user_container api_ok now fresh_cid u' db₂ dock
    | none =>
        if (List.lookup inp.plan PLANS).isNone then
          Except.error (400, "Invalid plan")
        else
          match get_next_available_port db with
          | none => Except.error (503, "No available ports - max users reached")
          | some port =>
              let nm := get_container_name user_identifier
              let nu : UserRow :=
                { id := db.seq, email := inp.email, github_id := user_identifier,
                  github_username := inp.github_username, plan := inp.plan,
                  telegram_bot_token := inp.telegram_bot_token,
                  gemini_api_key := inp.gemini_api_key,
                  container_id := "pending", container_name := nm,
                  container_port := some port, container_status := "stopped",
                  enabled_plugins := some "[]" }
              let db₁ := { db with users := db.users ++ [nu], seq := db.seq + 1 }
              let db₂ := if !inp.provider.isEmpty && py_truthy inp.provider_id then
                  { db₁ with
                    oauth := db₁.oauth ++
                      [{ id := db₁.seq, user_id := nu.id, provider := inp.provider,
                         provider_account_id := inp.provider_id.getD "",
                         access_token := inp.access_token.getD "",
                         refresh_token := inp.refresh_token, token_type := "bearer" }],
                    seq := db₁.seq + 1 }
                else db₁
              provision_user_container api_ok now fresh_cid nu db₂ dock

/-- delete_user models the delete endpoint: attempt runtime removal, then
remove the user row and report both outcomes. -/
def delete_user (api_ok : Bool) (gid : String) (remove_data : Bool)
    (db : DB) (dock : DockerState) :
    Except (Nat × String) (DB × DockerState × OpResult) :=
  match get_user_by_identifier db gid with
  | none => Except.error (404, "User not found")
  | some user =>
      let (docker_result, dock') := delete_container api_ok user.github_id remove_data dock
      let db' := { db with users := db.users.filter (fun u => !(u.id == user.id)) }
      Except.ok (db', dock', docker_result)

/-- ActionResult is the result dictionary returned by the container action
endpoint (thin operation result, possibly replaced by a create result on the
recreate path). -/
structure ActionResult where
  success : Bool
  status : String := ""
  error : String := ""
  container_id : Option String := none
  cname : Option String := none
  port : Option Nat := none
deriving DecidableEq

/-- action_result_of_op lifts a thin operation result. -/
def action_result_of_op (r : OpResult) : ActionResult :=
  { success := r.success, status := r.status, error := r.error }

/-- action_result_of_create lifts a create_container result. -/
def action_result_of_create (r : CreateResult) : ActionResult :=
  { success := r.success, status := r.status, error := r.error,
    container_id := if r.success then some r.container_id else none,
    cname := if r.success then some r.cname else none,
    port := r.port }

/-- container_action models the container action endpoint: start (with
recreate fallback when the container is gone), stop and restart; persisted
container_status is written only when the reported result is success. -/
def container_action (api_ok : Bool) (now fresh_cid : String)
    (gid act : String) (db : DB) (dock : DockerState) :
    Except (Nat × String) (DB × DockerState × ActionResult) :=
  match get_user_by_identifier db gid with
  | none => Except.error (404, "User not found")
  | some user =>
      let target := user.github_id
      if act == "start" then
        let (r0, dock₁) := start_container api_ok target dock
        if !r0.success && str_contains r0.error.toLower "not found" then
          if user.telegram_bot_token.isEmpty then
            Except.ok (db, dock₁,
              { success := false,
                error := "No Telegram bot token configured. Please set up your bot first." })
          else
            let connections := connections_of db.oauth user.id
            let portE : Except (Nat × String) Nat :=
              match user.container_port with
              | some p => Except.ok p
              | none =>
                  match get_next_available_port db with
                  | some p => Except.ok p
                  | none => Except.error (503, "No available ports - max users reached")
            match portE with
            | Except.error e => Except.error e
            | Except.ok port =>
                let pc := plan_config_of user.plan
                let (cr, dock₂) := create_container api_ok now fresh_cid target
                  user.plan port user.telegram_bot_token user.gemini_api_key
                  connections user.custom_rules pc.features dock₁
                let r := action_result_of_create cr
                let (db₁, user₁) :=
                  if cr.success then
                    let u' := { user with container_id := cr.container_id,
                                          container_name := cr.cname,
                                          container_port := cr.port }
                    ({ db_update_user db u' with
                        events := (db_update_user db u').events ++
                          [{ user_id := u'.id, container_id := cr.container_id,
                             event_type := "create",
                             details := some "Container recreated" }] }, u')
                  else (db, user)
                let status := if r.success then "running" else user₁.container_status
                if r.success then
                  let u'' := { user₁ with container_status := status }
                  Except.ok (db_update_user db₁ u'', dock₂, r)
                else
                  Except.ok (db₁, dock₂, r)
        else
          let r := action_result_of_op r0
          let status := if r.success then "running" else user.container_status
          if r.success then
            let u' := { user with container_status := status }
            let db₁ := db_update_user db u'
            let db₂ := { db₁ with events := db₁.events ++
              [{ user_id := user.id, container_id := user.container_id,
                 event_type := act }] }
            Except.ok (db₂, dock₁, r)
          else
            Except.ok (db, dock₁, r)
      else if act == "stop" then
        let (r0, dock₁) := stop_container api_ok target dock
        let r := action_result_of_op r0
        if r.success then
          let u' := { user with container_status := "stopped" }
          let db₁ := db_update_user db u'
          let db₂ := { db₁ with events := db₁.events ++
            [{ user_id := user.id, container_id := user.container_id,
               event_type := act }] }
          Except.ok (db₂, dock₁, r)
        else
          Except.ok (db, dock₁, r)
      else if act == "restart" then
        let (r0, dock₁) := restart_container api_ok target dock
        let r := action_result_of_op r0
        if r.success then
          let u' := { user with container_status := "running" }
          let db₁ := db_update_user db u'
          let db₂ := { db₁ with events := db₁.events ++
            [{ user_id := user.id, container_id := user.container_id,
               event_type := act }] }
          Except.ok (db₂, dock₁, r)
        else
          Except.ok (db, dock₁, r)
      else
        Except.error (400, "Invalid action")

/- ===== reconciler (docker_manager.py inspect + main.py sync) ===== -/

/-- ContainerSummary is one element of DockerManager.get_all_containers. -/
structure ContainerSummary where
  container_id : String
  name : String
  status : String
  user_identifier : Option String
  plan : Option String
  created : Option String
deriving DecidableEq

/-- get_all_containers models the labeled-container listing: every container
carrying the owner label key, summarized through its labels. -/
def get_all_containers (st : DockerState) : List ContainerSummary :=
  (st.filter (fun c => (List.lookup "clawbot.user" c.labels).isSome)).map
    (fun c =>
      { container_id := c.cid, name := c.name, status := c.status,
        user_identifier := List.lookup "clawbot.user" c.labels,
        plan := List.lookup "clawbot.plan" c.labels,
        created := List.lookup "clawbot.created" c.labels })

/-- SyncData is the snapshot returned by inspect_container_for_sync. -/
structure SyncData where
  user_identifier : String
  github_username : String
  plan : String
  container_id : String
  cname : String
  container_port : Option Nat
  container_status : String
  telegram_bot_token : String
  gemini_api_key : Option String
  github_token : Option String
  created_at : String
deriving DecidableEq

/-- inspect_container_for_sync models the container readback used by the
reconciler: environment variables and labels of the deterministically named
container reconstruct a tenant snapshot (the created_at fallback to the live
start time or the current clock is collapsed to a placeholder; no claim
reads it). -/
def inspect_container_for_sync (uid : String) (st : DockerState) : Option SyncData :=
  match docker_get st (get_container_name uid) with
  | none => none
  | some c =>
      let fallback := (List.lookup "clawbot.username" c.labels).getD uid
      let username := match List.lookup "GITHUB_USERNAME" c.env with
        | some u => if u.isEmpty then fallback else u
        | none => fallback
      some { user_identifier := uid,
             github_username := username,
             plan := (List.lookup "clawbot.plan" c.labels).getD "free",
             container_id := c.cid,
             cname := c.name,
             container_port := c.host_port,
             container_status := c.status,
             telegram_bot_token := dict_get c.env "TELEGRAM_BOT_TOKEN" "",
             gemini_api_key := List.lookup "GEMINI_API_KEY" c.env,
             github_token := List.lookup "GITHUB_TOKEN" c.env,
             created_at := (List.lookup "clawbot.created" c.labels).getD "" }

/-- adopted_user is the tenant row the adopt pass reconstructs from one
inspected container snapshot. -/
def adopted_user (seq : Nat) (d : SyncData) : UserRow :=
  { id := seq, github_id := d.user_identifier,
    github_username := some d.github_username,
    plan := d.plan,
    telegram_bot_token := d.telegram_bot_token,
    gemini_api_key := d.gemini_api_key,
    container_id := d.container_id,
    container_name := d.cname,
    container_port := d.container_port,
    container_status := "running" }

/-- sync_step processes one container summary of the adopt pass: skip when
the owner label is missing or empty or a matching tenant row already exists,
otherwise inspect the container and append a recovered tenant (plus a GitHub
credential when a token was recoverable). -/
def sync_step (dock : DockerState) (db : DB) (s : ContainerSummary) : DB :=
  match s.user_identifier with
  | none => db
  | some uid =>
      if uid.isEmpty then db
      else if (db.users.find? (fun u => u.github_id == uid)).isSome then db
      else
        match inspect_container_for_sync uid dock with
        | none => db
        | some d =>
            let nu : UserRow := adopted_user db.seq d
            let db₁ := { db with users := db.users ++ [nu], seq := db.seq + 1 }
            match d.github_token with
            | some t =>
                if t.isEmpty then db₁
                else
                  { db₁ with
                    oauth := db₁.oauth ++
                      [{ id := db₁.seq, user_id := nu.id, provider := "github",
                         provider_account_id := nu.github_id,
                         access_token := t, refresh_token := none,
                         token_type := "bearer" }],
                    seq := db₁.seq + 1 }
            | none => db₁

/-- sync_orphaned_users models the adopt pass of the reconciler: one fold of
sync_step over the labeled-container listing. -/
def sync_orphaned_users (db : DB) (dock : DockerState) : DB :=
  (get_all_containers dock).foldl (sync_step dock) db

/- ===== watchdog (watchdog.py) ===== -/

/-- HealthObs is the runtime response to one health probe of one tenant:
either the container is present with its process status and declared health,
or the lookup raises NotFound. -/
inductive HealthObs where
  | present (status health : String)
  | absent
deriving DecidableEq

/-- obs_running models the running flag computed by check_container_health. -/
def obs_running : HealthObs → Bool
  | .present s _ => s == "running"
  | .absent => false

/-- obs_healthy models the healthy flag computed by check_container_health:
declared health healthy or starting. -/
def obs_healthy : HealthObs → Bool
  | .present _ h => h == "healthy" || h == "starting"
  | .absent => false

/-- WatchState is the watchdog process state: the persistent store, the
volatile per-tenant restart-attempt map, and the log of notifications pushed
to the alert sink (severity and title). -/
structure WatchState where
  db : DB
  restart_attempts : List (String × Nat)
  sent : List (String × String)
deriving DecidableEq

/-- attempts_set models writing one key of the restart_attempts dictionary. -/
def attempts_set (m : List (String × Nat)) (gid : String) (n : Nat) :
    List (String × Nat) :=
  if (List.lookup gid m).isSome then
    m.map (fun kv => if kv.1 == gid then (kv.1, n) else kv)
  else m ++ [(gid, n)]

/-- attempts_del models del restart_attempts[gid]. -/
def attempts_del (m : List (String × Nat)) (gid : String) : List (String × Nat) :=
  m.filter (fun kv => !(kv.1 == gid))

/-- handle_unhealthy_container models Watchdog.handle_unhealthy_container.
At or above the escalation bound: persist error status and deactivation,
append the audit event, store a critical alert, notify the sink, and reset
the counter.  Below the bound: issue a start or restart (modelled as
succeeding when the container is present; a missing container persists
not_found and leaves the counter untouched), persist restarting status,
bump both counters, append the audit event and notify the sink with a
warning. -/
def handle_unhealthy_container (u : UserRow) (obs : HealthObs) (w : WatchState) :
    WatchState :=
  let gid := u.github_id
  let attempts := (List.lookup gid w.restart_attempts).getD 0
  if MAX_RESTART_ATTEMPTS ≤ attempts then
    let u' := { u with container_status := "error", is_active := false }
    let db₁ := db_update_user w.db u'
    let db₂ :=
      { db₁ with
        events := db₁.events ++
          [{ user_id := u.id, container_id := u.container_id,
             event_type := "max_restarts",
             details := some ("Container failed after " ++ toString attempts ++
               " restart attempts") }],
        alerts := db₁.alerts ++
          [{ severity := "critical",
             message := "Container for user " ++ gid ++ " failed after " ++
               toString attempts ++ " restarts. Manual intervention required.",
             user_id := u.id }] }
    { db := db₂,
      restart_attempts := attempts_set w.restart_attempts gid 0,
      sent := w.sent ++ [("critical", "Container Failed")] }
  else
    match obs with
    | .absent =>
        { w with db := db_update_user w.db { u with container_status := "not_found" } }
    | .present _ _ =>
        let u' := { u with
          container_status := "restarting"
          restart_count := u.restart_count + 1 }
        let db₁ := db_update_user w.db u'
        let db₂ :=
          { db₁ with events := db₁.events ++
            [{ user_id := u.id, container_id := u.container_id,
               event_type := "auto_restart",
               details := some ("Attempt " ++ toString (attempts + 1) ++ "/" ++
                 toString MAX_RESTART_ATTEMPTS) }] }
        { db := db₂,
          restart_attempts := attempts_set w.restart_attempts gid (attempts + 1),
          sent := w.sent ++ [("warning", "Container Auto-Restarted")] }

/-- handle_healthy_container models Watchdog.handle_healthy_container: drop
the restart-attempt key and persist recovery to running when the previous
status differed. -/
def handle_healthy_container (u : UserRow) (w : WatchState) : WatchState :=
  let w₁ := { w with restart_attempts := attempts_del w.restart_attempts u.github_id }
  if u.container_status != "running" then
    { w₁ with db := db_update_user w₁.db { u with container_status := "running" } }
  else w₁

/-- check_all_containers models one full health pass: the active tenants are
fetched once, then handled one at a time against the health observation of
this cycle. -/
def check_all_containers (obsf : String → HealthObs) (w : WatchState) : WatchState :=
  (w.db.users.filter (fun u => u.is_active)).foldl
    (fun acc u =>
      let obs := obsf u.github_id
      if obs_running obs && obs_healthy obs then handle_healthy_container u acc
      else handle_unhealthy_container u obs acc)
    w

/-- run_cycles iterates the watchdog pass: cycle number k observes health
through obsseq k. -/
def run_cycles (obsseq : Nat → String → HealthObs) : Nat → WatchState → WatchState
  | 0, w => w
  | n + 1, w => check_all_containers (obsseq n) (run_cycles obsseq n w)

/-- WatchdogOp enumerates the operations the watchdog main loop performs. -/
inductive WatchdogOp where
  | send_startup_alert
  | check_all
  | cleanup_orphans
  | sleep_interval (secs : Nat)
deriving DecidableEq

/-- watchdog_loop_body is what one iteration of the while loop in
Watchdog.run performs: a full health pass, then the sleep.  The orphan
cleanup announced by the in-code comment has no call in the loop body. -/
def watchdog_loop_body : List WatchdogOp :=
  [WatchdogOp.check_all, WatchdogOp.sleep_interval HEALTH_CHECK_INTERVAL]

/-- watchdog_run_ops is the operation trace of Watchdog.run after the given
number of completed loop iterations: the startup notification followed by
the sequential loop bodies. -/
def watchdog_run_ops (cycles : Nat) : List WatchdogOp :=
  WatchdogOp.send_startup_alert :: (List.replicate cycles watchdog_loop_body).flatten

/- ===== concrete fixtures used by witnesses ===== -/

/-- example_user is a concrete tenant row used by witnesses. -/
def example_user : UserRow := { id := 1, github_id := "alice" }

/-- example_cred is a concrete linked credential used by witnesses. -/
def example_cred : OAuthRow :=
  { id := 2, user_id := 1, provider := "google", provider_account_id := "g-123" }

/-- example_db is a concrete one-tenant store used by witnesses. -/
def example_db : DB :=
  { users := [example_user], oauth := [example_cred], events := [], alerts := [],
    seq := 3 }

/-- example_container is a concrete labeled runtime container used by
witnesses. -/
def example_container : DockerContainer :=
  { name := "clawbot_bob", cid := "cid1", status := "running",
    health := "unknown",
    labels := [("clawbot.user", "bob"), ("clawbot.plan", "pro"),
               ("clawbot.created", "t0")],
    env := [("TELEGRAM_BOT_TOKEN", "tt"), ("GEMINI_API_KEY", "gg"),
            ("GITHUB_TOKEN", "ght")],
    mem_limit := "4g", cpu_quota := 200000, host_port := some 9001 }

/-- empty_db is the empty persistent store used by witnesses. -/
def empty_db : DB :=
  { users := [], oauth := [], events := [], alerts := [], seq := 0 }

/-- example_watch is a one-tenant watchdog state used by witnesses and
counterexamples. -/
def example_watch : WatchState :=
  { db := { users := [example_user], oauth := [], events := [], alerts := [],
            seq := 2 },
    restart_attempts := [], sent := [] }

/-- obs_unhealthy_const reports the container exited and unhealthy on every
cycle. -/
def obs_unhealthy_const : Nat → String → HealthObs :=
  fun _ _ => HealthObs.present "exited" "unhealthy"

/-- obs_recovery reports one healthy cycle at index 2 and exited-unhealthy
everywhere else. -/
def obs_recovery : Nat → String → HealthObs :=
  fun k _ => if k == 2 then HealthObs.present "running" "healthy"
             else HealthObs.present "exited" "unhealthy"

/-- example_user2 is a second concrete tenant row used by witnesses. -/
def example_user2 : UserRow := { id := 9, github_id := "zoe" }

/-- example_db2 is a concrete two-tenant store used by witnesses. -/
def example_db2 : DB :=
  { users := [example_user, example_user2], oauth := [], events := [],
    alerts := [], seq := 10 }

/- ===== helper lemmas ===== -/

/-- lookup_mem recovers association-list membership from a lookup result. -/
theorem lookup_mem {β : Type} {k : String} {b : β} :
    ∀ {l : List (String × β)}, List.lookup k l = some b → (k, b) ∈ l := by
  intro l
  induction l with
  | nil => intro h; simp [List.lookup] at h
  | cons kv tl ih =>
      intro h
      rw [List.lookup] at h
      rcases hk : (k == kv.1) with _ | _
      · rw [hk] at h
        exact List.mem_cons_of_mem _ (ih h)
      · rw [hk] at h
        have hkeq : k = kv.1 := by simpa using hk
        have : kv = (k, b) := by
          cases kv
          simp at h ⊢
          exact ⟨hkeq.symm, h⟩
        simp [this]

/-- find_eq_of_unique_match pins down a find? result when one member matches
and every matching member is that one. -/
theorem find_eq_of_unique_match {α : Type} {p : α → Bool} {a : α} :
    ∀ {l : List α}, a ∈ l → p a = true → (∀ b ∈ l, p b = true → b = a) →
      l.find? p = some a := by
  intro l
  induction l with
  | nil => intro h; simp at h
  | cons x tl ih =>
      intro hmem hpa huniq
      rcases hx : p x with _ | _
      · have hxa : a ≠ x := fun he => by rw [he, hx] at hpa; cases hpa
        have hmem' : a ∈ tl := by
          rcases List.mem_cons.mp hmem with h | h
          · exact absurd h.symm (fun he => hxa he.symm)
          · exact h
        rw [List.find?_cons_of_neg _ (by simp [hx]), ih hmem' hpa
          (fun b hb hpb => huniq b (List.mem_cons_of_mem _ hb) hpb)]
      · have : x = a := huniq x (List.mem_cons_self _ _) hx
        rw [this, List.find?_cons_of_pos _ hpa]

/- ===== claims about the lifecycle manager ===== -/

/-- C1: calling create_container twice with identical arguments for the same
tenant never produces two runtime containers and always ends with exactly one
container for that tenant, in a running state; when the deterministically
named container already exists the second call is not an error, ensures the
container is running and reports success. -/
theorem create_container_idempotent
    (api2 : Bool) (now1 now2 cid1 cid2 uid plan telegram_token : String)
    (port : Nat) (gemini_key : Option String) (connections : Connections)
    (custom_rules : Option String) (plugins : List String) (st : DockerState)
    (h : ∀ c ∈ st, c.name ≠ get_container_name uid ∧
         List.lookup "clawbot.user" c.labels ≠ some uid) :
    let first := create_container true now1 cid1 uid plan port telegram_token
      gemini_key connections custom_rules plugins st
    let second := create_container api2 now2 cid2 uid plan port telegram_token
      gemini_key connections custom_rules plugins first.2
    first.1.success = true ∧ second.1.success = true ∧ second.2 = first.2 ∧
    (second.2.filter (fun c => c.name == get_container_name uid)).length = 1 ∧
    (second.2.filter
      (fun c => List.lookup "clawbot.user" c.labels == some uid)).length = 1 ∧
    ∀ c ∈ second.2, c.name = get_container_name uid → c.status = "running" := by
  intro first second
  have hnm : docker_get st (get_container_name uid) = none := by
    rw [docker_get, List.find?_eq_none]
    intro c hc
    simpa using (h c hc).1
  have hfirst2 : first.2 =
      st ++ [new_container now1 cid1 uid plan port telegram_token gemini_key connections] := by
    show (create_container true now1 cid1 uid plan port telegram_token
      gemini_key connections custom_rules plugins st).2 = _
    rw [create_container, hnm]
    simp
  have hfirst1 : first.1.success = true := by
    show (create_container true now1 cid1 uid plan port telegram_token
      gemini_key connections custom_rules plugins st).1.success = true
    rw [create_container, hnm]
    simp
  have hget2 : docker_get first.2 (get_container_name uid) =
      some (new_container now1 cid1 uid plan port telegram_token gemini_key connections) := by
    rw [hfirst2, docker_get, List.find?_append]
    have h1 : st.find? (fun c => c.name == get_container_name uid) = none := hnm
    rw [h1]
    simp [new_container]
  have hsecond : second =
      ({ success := true, container_id := cid1, cname := get_container_name uid,
         status := "running",
         message := "Container already exists, ensured running." }, first.2) := by
    show create_container api2 now2 cid2 uid plan port telegram_token
      gemini_key connections custom_rules plugins first.2 = _
    rw [create_container, hget2]
    simp [new_container]
  refine ⟨hfirst1, ?_, ?_, ?_, ?_, ?_⟩
  · rw [hsecond]
  · rw [hsecond]
  · rw [hsecond, hfirst2, List.filter_append]
    have h1 : st.filter (fun c => c.name == get_container_name uid) = [] := by
      rw [List.filter_eq_nil_iff]
      intro c hc
      simpa using (h c hc).1
    rw [h1]
    simp [new_container]
  · rw [hsecond, hfirst2, List.filter_append]
    have h1 : st.filter (fun c => List.lookup "clawbot.user" c.labels == some uid) = [] := by
      rw [List.filter_eq_nil_iff]
      intro c hc
      simpa using (h c hc).2
    rw [h1]
    simp [new_container]
  · rw [hsecond, hfirst2]
    intro c hc hcn
    rcases List.mem_append.mp hc with hmem | hmem
    · exact absurd hcn (h c hmem).1
    · have : c = new_container now1 cid1 uid plan port telegram_token gemini_key connections := by
        simpa using hmem
      rw [this]
      rfl

/-- C1 witness: the idempotence theorem applied at a concrete tenant on an
empty runtime. -/
theorem create_container_idempotent_witness :
    (create_container true "t1" "c1" "alice" "free" 9000 "tok" none [] none []
      []).1.success = true ∧
    (create_container false "t2" "c2" "alice" "free" 9000 "tok" none [] none []
      (create_container true "t1" "c1" "alice" "free" 9000 "tok" none [] none []
        []).2).1.success = true ∧
    (create_container false "t2" "c2" "alice" "free" 9000 "tok" none [] none []
      (create_container true "t1" "c1" "alice" "free" 9000 "tok" none [] none []
        []).2).2 =
      (create_container true "t1" "c1" "alice" "free" 9000 "tok" none [] none []
        []).2 ∧
    ((create_container false "t2" "c2" "alice" "free" 9000 "tok" none [] none []
      (create_container true "t1" "c1" "alice" "free" 9000 "tok" none [] none []
        []).2).2.filter
      (fun c => c.name == get_container_name "alice")).length = 1 ∧
    ((create_container false "t2" "c2" "alice" "free" 9000 "tok" none [] none []
      (create_container true "t1" "c1" "alice" "free" 9000 "tok" none [] none []
        []).2).2.filter
      (fun c => List.lookup "clawbot.user" c.labels == some "alice")).length = 1 := by
  obtain ⟨h1, h2, h3, h4, h5, h6⟩ := create_container_idempotent false "t1" "t2"
    "c1" "c2" "alice" "free" "tok" 9000 none [] none [] [] (by simp)
  exact ⟨h1, h2, h3, h4, h5⟩

/-- C5: for every plan name present in the static plan table, create_container
requests a container whose memory ceiling is exactly the memory_limit table
entry of that plan and whose CPU quota is exactly the cpu_limit table entry
multiplied by 100000 (the int truncation loses nothing on these values). -/
theorem create_container_plan_limits
    (now cid uid plan telegram_token : String) (pc : PlanConfig) (port : Nat)
    (gemini_key : Option String) (connections : Connections)
    (custom_rules : Option String) (plugins : List String) (st : DockerState)
    (hplan : List.lookup plan PLANS = some pc)
    (hnew : docker_get st (get_container_name uid) = none) :
    ∃ c : DockerContainer,
      (create_container true now cid uid plan port telegram_token gemini_key
        connections custom_rules plugins st).2 = st ++ [c] ∧
      c.mem_limit = pc.memory_limit ∧
      (c.cpu_quota : ℚ) = pc.cpu_limit * 100000 := by
  refine ⟨new_container now cid uid plan port telegram_token gemini_key connections,
    ?_, ?_, ?_⟩
  · rw [create_container, hnew]
    simp
  · show (plan_config_of plan).memory_limit = pc.memory_limit
    rw [plan_config_of, hplan]
    rfl
  · show ((Rat.floor ((plan_config_of plan).cpu_limit * 100000) : ℤ) : ℚ) =
      pc.cpu_limit * 100000
    rw [plan_config_of, hplan, Option.getD_some]
    have hmem : (plan, pc) ∈ PLANS := lookup_mem hplan
    have hcpu : pc.cpu_limit = 1/2 ∨ pc.cpu_limit = 1 ∨ pc.cpu_limit = 2 := by
      simp only [PLANS, FREE_PLAN, List.mem_cons, List.not_mem_nil, or_false,
        Prod.mk.injEq] at hmem
      rcases hmem with ⟨-, h⟩ | ⟨-, h⟩ | ⟨-, h⟩ <;> rw [h]
      · left; rfl
      · right; left; rfl
      · right; right; rfl
    rcases hcpu with hc | hc | hc <;> rw [hc] <;> norm_num [Rat.floor]

/-- C5 witness: the plan-limit theorem applied at the pro plan on an empty
runtime. -/
theorem create_container_plan_limits_witness :
    (create_container true "t" "c" "alice" "pro" 9001 "tok" none [] none []
      []).2 = [] ++ [new_container "t" "c" "alice" "pro" 9001 "tok" none []] ∧
    (new_container "t" "c" "alice" "pro" 9001 "tok" none []).mem_limit = "4g" ∧
    ((new_container "t" "c" "alice" "pro" 9001 "tok" none []).cpu_quota : ℚ) =
      2 * 100000 := by
  obtain ⟨c, h1, h2, h3⟩ := create_container_plan_limits "t" "c" "alice" "pro"
    "tok"
    { memory_limit := "4g", cpu_limit := 2, max_daily_messages := 5000,
      features := ["basic_chat", "github-ghost", "google-search-console",
                   "google-analytics", "custom_rules"], price_usd := 50 }
    9001 none [] none [] [] (by rfl) (by rfl)
  have hc : new_container "t" "c" "alice" "pro" 9001 "tok" none [] = c := by
    have h1' : ([] : DockerState) ++
        [new_container "t" "c" "alice" "pro" 9001 "tok" none []] = [] ++ [c] := by
      rw [← h1]
      rfl
    simpa using h1'
  exact ⟨rfl, by rw [hc]; exact h2, by rw [hc]; exact h3⟩

/-- C9 counterexample: a tenant edit placed after the Active Connections
section of USER.md does not survive a provisioning call that passes
connections — the rewrite keeps only the text before the first marker and
discards everything after it, so the claim that all tenant edits outside the
section survive unchanged is false at this input. -/
theorem seed_connections_update_loses_trailing_edits :
    str_contains
      "# USER.md\n- Name: Ada\n\n## Active Connections\n- old entry\n\n## Notes\nkeep me"
      "## Notes" = true ∧
    str_contains
      (seed_connections_update [("github", [])]
        "# USER.md\n- Name: Ada\n\n## Active Connections\n- old entry\n\n## Notes\nkeep me")
      "## Notes" = false ∧
    seed_connections_update [("github", [])]
      "# USER.md\n- Name: Ada\n\n## Active Connections\n- old entry\n\n## Notes\nkeep me" =
      "# USER.md\n- Name: Ada\n\n## Active Connections\n- ✅ GitHub (Active: Authenticated via environment)\n" := by
  refine ⟨by decide, by decide, by decide⟩

/-- C9 amended: on a provisioning call that passes a nonempty connections
dictionary and the USER.md text contains the Active Connections marker, the
file becomes the text before the first marker (whitespace-stripped at the
ends) followed by the freshly re-synchronized section for the currently
linked providers; tenant edits before the marker survive, while everything
from the marker to the end of the file is discarded. -/
theorem seed_connections_update_replaces_from_marker
    (cs : Connections) (content pre : String) (rest : List String)
    (hcs : cs ≠ [])
    (hsplit : py_split content active_connections_marker = pre :: rest)
    (hrest : rest ≠ []) :
    seed_connections_update cs content =
      if (connection_lines cs).isEmpty then py_strip pre
      else py_strip pre ++ "\n\n" ++ active_connections_marker ++ "\n" ++
        String.intercalate "\n" (connection_lines cs) ++ "\n" := by
  rw [seed_connections_update]
  have hne : cs.isEmpty = false := by
    cases cs with
    | nil => exact absurd rfl hcs
    | cons a l => rfl
  rw [hne]
  simp only [Bool.false_eq_true, if_false, hsplit]
  have hlen : ((pre :: rest).length != 1) = true := by
    cases rest with
    | nil => exact absurd rfl hrest
    | cons b l => simp
  rw [hlen]
  simp only [if_true, List.headD_cons]

/-- C9 amended witness: the rewrite theorem applied to a concrete file with a
marker and one linked provider. -/
theorem seed_connections_update_replaces_from_marker_witness :
    seed_connections_update [("google", [])]
      "# USER.md\nabout Ada\n\n## Active Connections\n- stale" =
      if (connection_lines [("google", [])]).isEmpty then
        py_strip "# USER.md\nabout Ada\n\n"
      else
        py_strip "# USER.md\nabout Ada\n\n" ++ "\n\n" ++ active_connections_marker ++
          "\n" ++ String.intercalate "\n" (connection_lines [("google", [])]) ++ "\n" :=
  seed_connections_update_replaces_from_marker [("google", [])]
    "# USER.md\nabout Ada\n\n## Active Connections\n- stale"
    "# USER.md\nabout Ada\n\n" ["\n- stale"] (by simp) (by decide) (by simp)

/- ===== claims about the identity resolver ===== -/

/-- C6: for a tenant holding a linked external credential, resolving by the
legacy identifier and resolving by that credential's provider account id
return the same tenant record (under the store's uniqueness constraints and
absence of cross-tenant identifier collisions), and resolution yields NotFound
exactly when neither the legacy identifier nor any linked credential
matches. -/
theorem get_user_by_identifier_convergence
    (db : DB) (u : UserRow) (c : OAuthRow)
    (hu : u ∈ db.users)
    (huniq : ∀ v ∈ db.users, v.github_id = u.github_id → v = u)
    (hpk : ∀ v ∈ db.users, v.id = u.id → v = u)
    (hc : c ∈ db.oauth) (hcu : c.user_id = u.id)
    (hcall : ∀ d ∈ db.oauth,
      d.provider_account_id = c.provider_account_id → d.user_id = u.id)
    (hng : ∀ v ∈ db.users, v.github_id = c.provider_account_id → v = u) :
    get_user_by_identifier db u.github_id = some u ∧
    get_user_by_identifier db c.provider_account_id = some u ∧
    ∀ ident : String,
      (∀ v ∈ db.users, v.github_id ≠ ident) →
      (∀ d ∈ db.oauth, d.provider_account_id ≠ ident) →
      get_user_by_identifier db ident = none := by
  refine ⟨?_, ?_, ?_⟩
  · have hfind : db.users.find? (fun v => v.github_id == u.github_id) = some u := by
      apply find_eq_of_unique_match hu (by simp)
      intro b hb hpb
      exact huniq b hb (by simpa using hpb)
    rw [get_user_by_identifier, hfind]
  · rcases hfind : db.users.find? (fun v => v.github_id == c.provider_account_id)
        with _ | v
    · have hoauth : (db.oauth.find?
          (fun d => d.provider_account_id == c.provider_account_id)).isSome = true := by
        rw [List.find?_isSome]
        exact ⟨c, hc, by simp⟩
      rcases hd : db.oauth.find?
          (fun d => d.provider_account_id == c.provider_account_id) with _ | d
      · rw [hd] at hoauth; cases hoauth
      · have hdmem := List.mem_of_find?_eq_some hd
        have hdp : d.provider_account_id = c.provider_account_id := by
          simpa using List.find?_some hd
        have hdu : d.user_id = u.id := hcall d hdmem hdp
        have hfind2 : db.users.find? (fun v => v.id == d.user_id) = some u := by
          apply find_eq_of_unique_match hu (by simp [hdu])
          intro b hb hpb
          exact hpk b hb (by rw [hdu] at hpb; simpa using hpb)
        rw [get_user_by_identifier, hfind, hd]
        exact hfind2
    · have hvmem := List.mem_of_find?_eq_some hfind
      have hvp : v.github_id = c.provider_account_id := by
        simpa using List.find?_some hfind
      have hv : v = u := hng v hvmem hvp
      rw [get_user_by_identifier, hfind, hv]
  · intro ident hnou hnoc
    have h1 : db.users.find? (fun v => v.github_id == ident) = none := by
      rw [List.find?_eq_none]
      intro v hv
      simpa using hnou v hv
    have h2 : db.oauth.find? (fun d => d.provider_account_id == ident) = none := by
      rw [List.find?_eq_none]
      intro d hd
      simpa using hnoc d hd
    rw [get_user_by_identifier, h1, h2]

/-- C6 witness: the convergence theorem applied to a one-tenant store holding
one linked Google credential. -/
theorem get_user_by_identifier_convergence_witness :
    get_user_by_identifier example_db example_user.github_id = some example_user ∧
    get_user_by_identifier example_db example_cred.provider_account_id =
      some example_user :=
  ⟨(get_user_by_identifier_convergence example_db example_user example_cred
      (by decide) (by decide) (by decide) (by decide) (by decide) (by decide)
      (by decide)).1,
   (get_user_by_identifier_convergence example_db example_user example_cred
      (by decide) (by decide) (by decide) (by decide) (by decide) (by decide)
      (by decide)).2.1⟩

/-- C7: creating a tenant with a plan name outside the static plan table
fails with an Invalid error surfaced to the caller — the request is rejected
before any store write or container request, rather than being accepted with
substitute resource limits. -/
theorem create_user_rejects_unknown_plan
    (api_ok : Bool) (now cid : String) (inp : UserCreate) (db : DB)
    (dock : DockerState)
    (hid : py_truthy inp.provider_id = true ∨ py_truthy inp.github_id = true ∨
      py_truthy inp.email = true)
    (hmail : py_truthy inp.email = true → ∀ u ∈ db.users, u.email ≠ inp.email)
    (hgid : py_truthy inp.github_id = true →
      ∀ u ∈ db.users, u.github_id ≠ inp.github_id.getD "")
    (hplan : List.lookup inp.plan PLANS = none) :
    create_user api_ok now cid inp db dock = Except.error (400, "Invalid plan") := by
  have hfe : py_truthy inp.email = true →
      db.users.find? (fun u => u.email == inp.email) = none := by
    intro he
    rw [List.find?_eq_none]
    intro u hu
    simpa using hmail he u hu
  have hfg : py_truthy inp.github_id = true →
      db.users.find? (fun u => u.github_id == inp.github_id.getD "") = none := by
    intro hg
    rw [List.find?_eq_none]
    intro u hu
    simpa using hgid hg u hu
  by_cases hp : py_truthy inp.provider_id = true <;>
    by_cases hg : py_truthy inp.github_id = true <;>
      by_cases he : py_truthy inp.email = true
  all_goals
    simp only [create_user, hp, hg, he, if_true, if_false, Bool.not_true,
      Bool.not_false, Bool.false_eq_true, Bool.true_eq_false, ite_true, ite_false]
  all_goals simp [hplan, hfe, hfg, hp, hg, he]
  rcases hid with h | h | h <;> simp_all

/-- C7 witness: the rejection theorem applied to a fresh request carrying an
unknown plan name against the empty store. -/
theorem create_user_rejects_unknown_plan_witness :
    create_user true "t" "c"
      { github_id := some "bob", plan := "platinum", telegram_bot_token := "tok" }
      { users := [], oauth := [], events := [], alerts := [], seq := 0 } [] =
      Except.error (400, "Invalid plan") :=
  create_user_rejects_unknown_plan true "t" "c"
    { github_id := some "bob", plan := "platinum", telegram_bot_token := "tok" }
    { users := [], oauth := [], events := [], alerts := [], seq := 0 } []
    (by decide) (by decide) (by decide) (by decide)

/- ===== claims about commit discipline (main.py) ===== -/

/-- C8 counterexample: explicit tenant deletion does not wait for the runtime
removal to succeed — with no container in the runtime, delete_container
reports failure, yet the tenant row is removed and the endpoint reports
success, so the claim that the row is removed only when the runtime removal
succeeded is false at this input. -/
theorem delete_user_removes_row_despite_runtime_failure :
    delete_user true "alice" false example_db [] =
      Except.ok (({ users := [], oauth := [example_cred], events := [],
                    alerts := [], seq := 3 } : DB), ([] : DockerState),
        ({ success := false, error := "Container not found" } : OpResult)) ∧
    example_user ∈ example_db.users := by
  exact ⟨by rfl, by decide⟩

/-- C8 amended: a container start, stop or restart action commits the
persisted store only when the runtime call reported success (on failure the
store is returned unchanged); explicit tenant deletion, however, removes the
tenant row regardless of whether the runtime container removal succeeded. -/
theorem mutation_commit_discipline :
    (∀ (api_ok : Bool) (now cid gid act : String) (db : DB) (dock : DockerState)
       (db' : DB) (dock' : DockerState) (r : ActionResult),
       act = "start" ∨ act = "stop" ∨ act = "restart" →
       container_action api_ok now cid gid act db dock =
         Except.ok (db', dock', r) →
       r.success = false → db' = db) ∧
    (∀ (api_ok : Bool) (gid : String) (rd : Bool) (db : DB) (dock : DockerState)
       (db' : DB) (dock' : DockerState) (r : OpResult) (u : UserRow),
       get_user_by_identifier db gid = some u →
       delete_user api_ok gid rd db dock = Except.ok (db', dock', r) →
       ∀ v ∈ db'.users, v.id ≠ u.id) := by
  constructor
  · intro api_ok now cid gid act db dock db' dock' r hact h hr
    rcases hu : get_user_by_identifier db gid with _ | user <;>
      rcases hact with h1 | h1 | h1 <;> subst h1 <;>
        simp only [container_action, hu] at h <;>
          [skip; skip; skip; split at h; split at h; split at h] <;>
            [skip; skip; skip; skip; skip; skip; skip; skip; skip] <;>
              try exact Except.noConfusion h
    all_goals try split at h
    all_goals try split at h
    all_goals try split at h
    all_goals try split at h
    all_goals
      first
      | exact Except.noConfusion h
      | · simp only [Except.ok.injEq, Prod.mk.injEq] at h
          rcases h with ⟨hdb, -, hres⟩
          first
          | exact hdb.symm
          | (rw [← hres] at hr; simp_all [action_result_of_op,
              action_result_of_create])
  · intro api_ok gid rd db dock db' dock' r u hu h v hv
    rw [delete_user, hu] at h
    simp only [Except.ok.injEq, Prod.mk.injEq] at h
    rw [← h.1] at hv
    simp only [List.mem_filter] at hv
    intro he
    have := hv.2
    rw [he] at this
    simp at this

/-- C8 amended witness: the discipline theorem applied to concrete stores — a
failing stop leaves the store unchanged, and deletion removes the targeted
row (leaving the other tenant) even though the runtime removal failed. -/
theorem mutation_commit_discipline_witness :
    example_db = example_db ∧ example_user2.id ≠ example_user.id :=
  ⟨mutation_commit_discipline.1 true "t" "c" "alice" "stop" example_db []
      example_db []
      { success := false, error := "Container not found" }
      (Or.inr (Or.inl rfl)) (by rfl) (by rfl),
   mutation_commit_discipline.2 true "alice" false example_db2 []
      { users := [example_user2], oauth := [], events := [], alerts := [],
        seq := 10 }
      []
      { success := false, error := "Container not found" } example_user
      (by rfl) (by rfl) example_user2 (by decide)⟩

/- ===== claims about the reconciler ===== -/

/-- sync_step_mem: one adopt step never removes or rewrites an existing
tenant row. -/
theorem sync_step_mem (dock : DockerState) (db : DB) (s : ContainerSummary)
    (u : UserRow) (hu : u ∈ db.users) : u ∈ (sync_step dock db s).users := by
  rw [sync_step]
  repeat' split
  all_goals first
    | exact hu
    | exact List.mem_append_left _ hu

/-- sync_fold_mem: the whole adopt pass never removes or rewrites an existing
tenant row. -/
theorem sync_fold_mem (dock : DockerState) :
    ∀ (ss : List ContainerSummary) (db : DB) (u : UserRow), u ∈ db.users →
      u ∈ (ss.foldl (sync_step dock) db).users := by
  intro ss
  induction ss with
  | nil => intro db u hu; exact hu
  | cons s tl ih =>
      intro db u hu
      exact ih (sync_step dock db s) u (sync_step_mem dock db s u hu)

/-- sync_step_filter_stable: once some tenant row carries the identifier, an
adopt step leaves the rows carrying that identifier untouched. -/
theorem sync_step_filter_stable (dock : DockerState) (db : DB)
    (s : ContainerSummary) (uid : String)
    (hex : ∃ u ∈ db.users, u.github_id = uid) :
    (sync_step dock db s).users.filter (fun u => u.github_id == uid) =
      db.users.filter (fun u => u.github_id == uid) := by
  rw [sync_step]
  split
  · rfl
  · next uid' heq =>
      split
      · rfl
      · split
        · rfl
        · next hfound =>
            by_cases he : uid' = uid
            · exfalso
              rcases hex with ⟨u, hu, hgid⟩
              apply hfound
              rw [List.find?_isSome]
              exact ⟨u, hu, by simp [hgid, he]⟩
            · split
              · rfl
              · next d hin =>
                  have hnu : ((adopted_user db.seq d).github_id == uid) = false := by
                    have : d.user_identifier = uid' := by
                      rw [inspect_container_for_sync] at hin
                      rcases hdk : docker_get dock (get_container_name uid') with _ | c
                      · rw [hdk] at hin; cases hin
                      · rw [hdk] at hin
                        simp only [Option.some.injEq] at hin
                        rw [← hin]
                    simp [adopted_user, this, he]
                  split
                  · split
                    · simp [List.filter_append, hnu]
                    · simp [List.filter_append, hnu]
                  · simp [List.filter_append, hnu]

/-- sync_fold_filter_stable: once some tenant row carries the identifier, the
remaining adopt steps leave the rows carrying that identifier untouched. -/
theorem sync_fold_filter_stable (dock : DockerState) (uid : String) :
    ∀ (ss : List ContainerSummary) (db : DB),
      (∃ u ∈ db.users, u.github_id = uid) →
      (ss.foldl (sync_step dock) db).users.filter (fun u => u.github_id == uid) =
        db.users.filter (fun u => u.github_id == uid) := by
  intro ss
  induction ss with
  | nil => intro db _; rfl
  | cons s tl ih =>
      intro db hex
      rcases hex with ⟨u, hu, hgid⟩
      rw [List.foldl_cons, ih (sync_step dock db s)
        ⟨u, sync_step_mem dock db s u hu, hgid⟩]
      exact sync_step_filter_stable dock db s uid ⟨u, hu, hgid⟩

/-- sync_step_no_uid: a step processing a summary of a different tenant never
introduces a row carrying this identifier. -/
theorem sync_step_no_uid (dock : DockerState) (db : DB) (s : ContainerSummary)
    (uid : String)
    (hno : ∀ u ∈ db.users, u.github_id ≠ uid)
    (hs : s.user_identifier ≠ some uid) :
    ∀ u ∈ (sync_step dock db s).users, u.github_id ≠ uid := by
  rw [sync_step]
  split
  · exact hno
  · next uid' heq =>
      have hne : uid' ≠ uid := fun he => hs (by rw [heq, he])
      split
      · exact hno
      · split
        · exact hno
        · split
          · exact hno
          · next d hin =>
              have hdu : d.user_identifier = uid' := by
                rw [inspect_container_for_sync] at hin
                rcases hdk : docker_get dock (get_container_name uid') with _ | c
                · rw [hdk] at hin; cases hin
                · rw [hdk] at hin
                  simp only [Option.some.injEq] at hin
                  rw [← hin]
              have hmem : ∀ u ∈ db.users ++ [adopted_user db.seq d],
                  u.github_id ≠ uid := by
                intro u hu
                rcases List.mem_append.mp hu with hm | hm
                · exact hno u hm
                · have : u = adopted_user db.seq d := by simpa using hm
                  rw [this]
                  simpa [adopted_user, hdu] using hne
              split
              · split
                · exact hmem
                · exact hmem
              · exact hmem

/-- sync_step_adopts: processing the summary of an unmatched tenant whose
container answers inspection appends exactly that reconstructed row. -/
theorem sync_step_adopts (dock : DockerState) (db : DB) (s : ContainerSummary)
    (uid : String) (d : SyncData)
    (hs : s.user_identifier = some uid) (huid : uid ≠ "")
    (hno : ∀ u ∈ db.users, u.github_id ≠ uid)
    (hins : inspect_container_for_sync uid dock = some d)
    (hdu : d.user_identifier = uid) :
    (sync_step dock db s).users.filter (fun u => u.github_id == uid) =
      [adopted_user db.seq d] ∧
    adopted_user db.seq d ∈ (sync_step dock db s).users := by
  have hempty : uid.isEmpty = false := by
    rcases h : uid.isEmpty with _ | _
    · rfl
    · exact absurd ((String.isEmpty_iff uid).mp h) huid
  have hfind : (db.users.find? (fun u => u.github_id == uid)).isSome = false := by
    rcases hf : db.users.find? (fun u => u.github_id == uid) with _ | v
    · rw [hf]; rfl
    · exfalso
      exact hno v (List.mem_of_find?_eq_some hf) (by simpa using List.find?_some hf)
  have hfilter : db.users.filter (fun u => u.github_id == uid) = [] := by
    rw [List.filter_eq_nil_iff]
    intro u hu
    simpa using hno u hu
  have hflt2 : (db.users ++ [adopted_user db.seq d]).filter
      (fun u => u.github_id == uid) = [adopted_user db.seq d] := by
    rw [List.filter_append, hfilter]
    simp [adopted_user, hdu]
  rw [sync_step, hs]
  simp only [hempty, hfind, Bool.false_eq_true, if_false, hins]
  constructor
  · split
    · split
      · exact hflt2
      · exact hflt2
    · exact hflt2
  · have : adopted_user db.seq d ∈ db.users ++ [adopted_user db.seq d] := by simp
    split
    · split
      · exact this
      · exact this
    · exact this

/-- sync_fold_adopt: an adopt pass over a summary list containing the tenant
adopts exactly one reconstructed row for it. -/
theorem sync_fold_adopt (dock : DockerState) (uid : String) (d : SyncData)
    (hins : inspect_container_for_sync uid dock = some d)
    (hdu : d.user_identifier = uid) (huid : uid ≠ "") :
    ∀ (ss : List ContainerSummary) (db : DB),
      (∀ u ∈ db.users, u.github_id ≠ uid) →
      (∃ s ∈ ss, s.user_identifier = some uid) →
      ∃ seq', (ss.foldl (sync_step dock) db).users.filter
        (fun u => u.github_id == uid) = [adopted_user seq' d] := by
  intro ss
  induction ss with
  | nil =>
      intro db _ hex
      rcases hex with ⟨s, hs, _⟩
      simp at hs
  | cons s tl ih =>
      intro db hno hex
      by_cases hsu : s.user_identifier = some uid
      · obtain ⟨hfilt, hmem⟩ := sync_step_adopts dock db s uid d hsu huid hno hins hdu
        refine ⟨db.seq, ?_⟩
        rw [List.foldl_cons,
          sync_fold_filter_stable dock uid tl (sync_step dock db s)
            ⟨adopted_user db.seq d, hmem, by simp [adopted_user, hdu]⟩]
        exact hfilt
      · have hno' := sync_step_no_uid dock db s uid hno hsu
        have hex' : ∃ s' ∈ tl, s'.user_identifier = some uid := by
          rcases hex with ⟨s', hs', he'⟩
          rcases List.mem_cons.mp hs' with h | h
          · exact absurd (h ▸ he') hsu
          · exact ⟨s', h, he'⟩
        rw [List.foldl_cons]
        exact ih (sync_step dock db s) hno' hex'

/-- C4: for a runtime container carrying owner labels whose identifier has no
matching tenant row, one run of the adopt pass creates exactly one new
tenant, its plan, port and credential fields match what is embedded in that
container's labels and environment, and no existing tenant row is removed or
rewritten. -/
theorem sync_orphaned_users_adopts
    (db : DB) (dock : DockerState) (uid : String) (c : DockerContainer)
    (huid : uid ≠ "")
    (hc : docker_get dock (get_container_name uid) = some c)
    (hlab : ∃ d0 ∈ dock, List.lookup "clawbot.user" d0.labels = some uid)
    (hnew : ∀ u ∈ db.users, u.github_id ≠ uid) :
    (∀ u ∈ db.users, u ∈ (sync_orphaned_users db dock).users) ∧
    ((sync_orphaned_users db dock).users.filter
      (fun u => u.github_id == uid)).length = 1 ∧
    (∀ u ∈ (sync_orphaned_users db dock).users, u.github_id = uid →
      u.plan = (List.lookup "clawbot.plan" c.labels).getD "free" ∧
      u.container_port = c.host_port ∧
      u.telegram_bot_token = dict_get c.env "TELEGRAM_BOT_TOKEN" "" ∧
      u.gemini_api_key = List.lookup "GEMINI_API_KEY" c.env ∧
      u.container_id = c.cid ∧
      u.container_status = "running") := by
  have hins : ∃ d : SyncData, inspect_container_for_sync uid dock = some d ∧
      d.user_identifier = uid ∧
      d.plan = (List.lookup "clawbot.plan" c.labels).getD "free" ∧
      d.container_port = c.host_port ∧
      d.telegram_bot_token = dict_get c.env "TELEGRAM_BOT_TOKEN" "" ∧
      d.gemini_api_key = List.lookup "GEMINI_API_KEY" c.env ∧
      d.container_id = c.cid := by
    rw [inspect_container_for_sync, hc]
    exact ⟨_, rfl, rfl, rfl, rfl, rfl, rfl, rfl⟩
  obtain ⟨d, hins, hdu, hplan, hport, htel, hgem, hcid⟩ := hins
  have hex : ∃ s ∈ get_all_containers dock, s.user_identifier = some uid := by
    rcases hlab with ⟨d0, hd0, hl0⟩
    refine ⟨_, List.mem_map.mpr ⟨d0, List.mem_filter.mpr ⟨hd0, by rw [hl0]; rfl⟩,
      rfl⟩, ?_⟩
    simpa using hl0
  obtain ⟨seq', hfilt⟩ := sync_fold_adopt dock uid d hins hdu huid
    (get_all_containers dock) db hnew hex
  refine ⟨?_, ?_, ?_⟩
  · intro u hu
    exact sync_fold_mem dock (get_all_containers dock) db u hu
  · rw [sync_orphaned_users, hfilt]
    rfl
  · intro u hu hgid
    have hmemf : u ∈ (sync_orphaned_users db dock).users.filter
        (fun v => v.github_id == uid) :=
      List.mem_filter.mpr ⟨hu, by simp [hgid]⟩
    rw [sync_orphaned_users, hfilt] at hmemf
    have hueq : u = adopted_user seq' d := by simpa using hmemf
    rw [hueq]
    exact ⟨hplan, hport, htel, hgem, hcid, rfl⟩

/-- C4 witness: the adoption theorem applied to a runtime holding one labeled
container for tenant bob and an empty store. -/
theorem sync_orphaned_users_adopts_witness :
    ((sync_orphaned_users empty_db [example_container]).users.filter
      (fun u => u.github_id == "bob")).length = 1 :=
  (sync_orphaned_users_adopts empty_db [example_container] "bob"
    example_container (by decide) (by rfl)
    ⟨example_container, by decide, by rfl⟩ (by decide)).2.1

/- ===== claims about the watchdog ===== -/

/-- C2 counterexample: with the default MAX_RESTART_ATTEMPTS of 3, a tenant
whose container is unhealthy on every cycle is still in restarting state
after exactly 3 unhealthy cycles — active, with no critical alert stored —
so the claim that the error transition happens after exactly
MAX_RESTART_ATTEMPTS unhealthy cycles is false at this input (the code
escalates one cycle later). -/
theorem watchdog_no_escalation_at_bound :
    (run_cycles obs_unhealthy_const MAX_RESTART_ATTEMPTS example_watch).db.users =
      [{ id := 1, github_id := "alice", container_status := "restarting",
         restart_count := 3 }] ∧
    ((run_cycles obs_unhealthy_const MAX_RESTART_ATTEMPTS
      example_watch).db.alerts.filter
        (fun a => a.severity == "critical")).length = 0 := by
  exact ⟨by decide, by decide⟩

/-- C2 amended: for an always-unhealthy tenant whose container stays present,
the error transition, deactivation, stored critical alert and counter reset
all happen after exactly MAX_RESTART_ATTEMPTS + 1 consecutive unhealthy
cycles — during the first MAX_RESTART_ATTEMPTS unhealthy cycles the tenant
is only restarted — exactly one critical alert is stored, the in-memory
counter is reset to zero, and no further cycle changes anything until manual
reactivation. -/
theorem watchdog_escalation_bound
    (u0 : UserRow) (oa : List OAuthRow) (ev : List ContainerEventRow)
    (al : List AlertRow) (sq : Nat) (sent : List (String × String))
    (obsseq : Nat → String → HealthObs)
    (hact : u0.is_active = true)
    (hobs : ∀ k, ∃ stt hh, obsseq k u0.github_id = HealthObs.present stt hh ∧
      ¬(obs_running (HealthObs.present stt hh) = true ∧
        obs_healthy (HealthObs.present stt hh) = true)) :
    let w0 : WatchState := ⟨⟨[u0], oa, ev, al, sq⟩, [], sent⟩
    let w4 := run_cycles obsseq (MAX_RESTART_ATTEMPTS + 1) w0
    (∃ u', w4.db.users = [u'] ∧ u'.container_status = "error" ∧
      u'.is_active = false) ∧
    (w4.db.alerts.filter (fun a => a.severity == "critical")).length =
      (al.filter (fun a => a.severity == "critical")).length + 1 ∧
    List.lookup u0.github_id w4.restart_attempts = some 0 ∧
    (∀ m, run_cycles obsseq (MAX_RESTART_ATTEMPTS + 1 + m) w0 = w4) ∧
    (∀ k, 1 ≤ k → k ≤ MAX_RESTART_ATTEMPTS →
      ∃ u', (run_cycles obsseq k w0).db.users = [u'] ∧
        u'.container_status = "restarting" ∧ u'.is_active = true ∧
        ((run_cycles obsseq k w0).db.alerts.filter
          (fun a => a.severity == "critical")).length =
          (al.filter (fun a => a.severity == "critical")).length) := by
  intro w0 w4
  obtain ⟨s0, h0, ho0, hu0⟩ := hobs 0
  obtain ⟨s1, h1, ho1, hu1⟩ := hobs 1
  obtain ⟨s2, h2, ho2, hu2⟩ := hobs 2
  obtain ⟨s3, h3, ho3, hu3⟩ := hobs 3
  have hw1 : run_cycles obsseq 1 w0 =
      ⟨⟨[{ u0 with
            container_status := "restarting"
            restart_count := u0.restart_count + 1 }], oa,
         ev ++ [{ user_id := u0.id, container_id := u0.container_id,
                  event_type := "auto_restart",
                  details := some ("Attempt " ++ toString 1 ++ "/" ++
                    toString 3) }], al, sq⟩,
       [(u0.github_id, 1)], sent ++ [("warning", "Container Auto-Restarted")]⟩ := by
    simp [run_cycles, check_all_containers, handle_unhealthy_container,
      db_update_user, attempts_set, MAX_RESTART_ATTEMPTS, hact, ho0, hu0,
      List.lookup]
  have hw2 : run_cycles obsseq 2 w0 =
      ⟨⟨[{ u0 with
            container_status := "restarting"
            restart_count := u0.restart_count + 1 + 1 }], oa,
         ev ++ [{ user_id := u0.id, container_id := u0.container_id,
                  event_type := "auto_restart",
                  details := some ("Attempt " ++ toString 1 ++ "/" ++
                    toString 3) },
                { user_id := u0.id, container_id := u0.container_id,
                  event_type := "auto_restart",
                  details := some ("Attempt " ++ toString 2 ++ "/" ++
                    toString 3) }], al, sq⟩,
       [(u0.github_id, 2)], sent ++ [("warning", "Container Auto-Restarted"),
         ("warning", "Container Auto-Restarted")]⟩ := by
    show check_all_containers (obsseq 1) (run_cycles obsseq 1 w0) = _
    rw [hw1]
    simp [check_all_containers, handle_unhealthy_container,
      db_update_user, attempts_set, MAX_RESTART_ATTEMPTS, hact, ho1, hu1,
      List.lookup]
  have hw3 : run_cycles obsseq 3 w0 =
      ⟨⟨[{ u0 with
            container_status := "restarting"
            restart_count := u0.restart_count + 1 + 1 + 1 }], oa,
         ev ++ [{ user_id := u0.id, container_id := u0.container_id,
                  event_type := "auto_restart",
                  details := some ("Attempt " ++ toString 1 ++ "/" ++
                    toString 3) },
                { user_id := u0.id, container_id := u0.container_id,
                  event_type := "auto_restart",
                  details := some ("Attempt " ++ toString 2 ++ "/" ++
                    toString 3) },
                { user_id := u0.id, container_id := u0.container_id,
                  event_type := "auto_restart",
                  details := some ("Attempt " ++ toString 3 ++ "/" ++
                    toString 3) }], al, sq⟩,
       [(u0.github_id, 3)], sent ++ [("warning", "Container Auto-Restarted"),
         ("warning", "Container Auto-Restarted"),
         ("warning", "Container Auto-Restarted")]⟩ := by
    show check_all_containers (obsseq 2) (run_cycles obsseq 2 w0) = _
    rw [hw2]
    simp [check_all_containers, handle_unhealthy_container,
      db_update_user, attempts_set, MAX_RESTART_ATTEMPTS, hact, ho2, hu2,
      List.lookup]
  have hw4 : run_cycles obsseq (MAX_RESTART_ATTEMPTS + 1) w0 =
      ⟨⟨[{ u0 with
            container_status := "error"
            is_active := false
            restart_count := u0.restart_count + 1 + 1 + 1 }], oa,
         ev ++ [{ user_id := u0.id, container_id := u0.container_id,
                  event_type := "auto_restart",
                  details := some ("Attempt " ++ toString 1 ++ "/" ++
                    toString 3) },
                { user_id := u0.id, container_id := u0.container_id,
                  event_type := "auto_restart",
                  details := some ("Attempt " ++ toString 2 ++ "/" ++
                    toString 3) },
                { user_id := u0.id, container_id := u0.container_id,
                  event_type := "auto_restart",
                  details := some ("Attempt " ++ toString 3 ++ "/" ++
                    toString 3) },
                { user_id := u0.id, container_id := u0.container_id,
                  event_type := "max_restarts",
                  details := some ("Container failed after " ++ toString 3 ++
                    " restart attempts") }],
         al ++ [{ severity := "critical",
                  message := "Container for user " ++ u0.github_id ++
                    " failed after " ++ toString 3 ++
                    " restarts. Manual intervention required.",
                  user_id := u0.id }], sq⟩,
       [(u0.github_id, 0)], sent ++ [("warning", "Container Auto-Restarted"),
         ("warning", "Container Auto-Restarted"),
         ("warning", "Container Auto-Restarted"),
         ("critical", "Container Failed")]⟩ := by
    show check_all_containers (obsseq 3) (run_cycles obsseq 3 w0) = _
    rw [hw3]
    simp [check_all_containers, handle_unhealthy_container,
      db_update_user, attempts_set, MAX_RESTART_ATTEMPTS, hact, ho3, hu3,
      List.lookup]
  refine ⟨⟨_, by rw [show w4 = _ from hw4], rfl, rfl⟩, ?_, ?_, ?_, ?_⟩
  · rw [show w4 = _ from hw4]
    simp [List.filter_append]
  · rw [show w4 = _ from hw4]
    simp [List.lookup]
  · intro m
    induction m with
    | zero => rfl
    | succ n ihn =>
        show check_all_containers (obsseq (MAX_RESTART_ATTEMPTS + 1 + n))
          (run_cycles obsseq (MAX_RESTART_ATTEMPTS + 1 + n) w0) = w4
        rw [ihn, show w4 = _ from hw4]
        simp [check_all_containers]
  · intro k hk1 hk3
    have hk3' : k ≤ 3 := hk3
    interval_cases k
    · exact ⟨{ u0 with
          container_status := "restarting"
          restart_count := u0.restart_count + 1 },
        by rw [hw1], rfl, hact, by rw [hw1]⟩
    · exact ⟨{ u0 with
          container_status := "restarting"
          restart_count := u0.restart_count + 1 + 1 },
        by rw [hw2], rfl, hact, by rw [hw2]⟩
    · exact ⟨{ u0 with
          container_status := "restarting"
          restart_count := u0.restart_count + 1 + 1 + 1 },
        by rw [hw3], rfl, hact, by rw [hw3]⟩

/-- C2 amended witness: the escalation theorem applied to a concrete tenant
under a constant exited-unhealthy observation — one stored critical alert,
counter reset to zero, and five further cycles change nothing. -/
theorem watchdog_escalation_bound_witness :
    ((run_cycles obs_unhealthy_const (MAX_RESTART_ATTEMPTS + 1)
        ⟨⟨[example_user], [], [], [], 2⟩, [], []⟩).db.alerts.filter
      (fun a => a.severity == "critical")).length =
      (List.filter (fun a => a.severity == "critical")
        ([] : List AlertRow)).length + 1 ∧
    List.lookup example_user.github_id
      (run_cycles obs_unhealthy_const (MAX_RESTART_ATTEMPTS + 1)
        ⟨⟨[example_user], [], [], [], 2⟩, [], []⟩).restart_attempts = some 0 ∧
    run_cycles obs_unhealthy_const (MAX_RESTART_ATTEMPTS + 1 + 5)
        ⟨⟨[example_user], [], [], [], 2⟩, [], []⟩ =
      run_cycles obs_unhealthy_const (MAX_RESTART_ATTEMPTS + 1)
        ⟨⟨[example_user], [], [], [], 2⟩, [], []⟩ := by
  obtain ⟨h1, h2, h3, h4, h5⟩ := watchdog_escalation_bound example_user [] [] []
    2 [] obs_unhealthy_const rfl
    (fun _ => ⟨"exited", "unhealthy", rfl, by decide⟩)
  exact ⟨h2, h3, h4 5⟩

/-- C3: after MAX_RESTART_ATTEMPTS - 1 consecutive unhealthy cycles, a single
cycle in which the container is running and healthy-or-starting removes the
in-memory restart-attempt key (the counter reads zero again), and afterwards
one more failure — indeed anything up to MAX_RESTART_ATTEMPTS - 1 further
consecutive failures — does not re-trigger escalation: a full fresh run of
failures is required, not one. -/
theorem watchdog_recovery_resets_counter
    (u0 : UserRow) (oa : List OAuthRow) (ev : List ContainerEventRow)
    (al : List AlertRow) (sq : Nat) (sent : List (String × String))
    (obsseq : Nat → String → HealthObs)
    (hact : u0.is_active = true)
    (hobs : ∀ k, k ≠ 2 → ∃ stt hh,
      obsseq k u0.github_id = HealthObs.present stt hh ∧
      ¬(obs_running (HealthObs.present stt hh) = true ∧
        obs_healthy (HealthObs.present stt hh) = true))
    (hh : obs_running (obsseq 2 u0.github_id) = true ∧
      obs_healthy (obsseq 2 u0.github_id) = true) :
    let w0 : WatchState := ⟨⟨[u0], oa, ev, al, sq⟩, [], sent⟩
    List.lookup u0.github_id
      (run_cycles obsseq MAX_RESTART_ATTEMPTS w0).restart_attempts = none ∧
    (∀ k, k ≤ MAX_RESTART_ATTEMPTS - 1 →
      ∃ u', (run_cycles obsseq (MAX_RESTART_ATTEMPTS + k) w0).db.users = [u'] ∧
        u'.container_status ≠ "error" ∧ u'.is_active = true ∧
        ((run_cycles obsseq (MAX_RESTART_ATTEMPTS + k) w0).db.alerts.filter
          (fun a => a.severity == "critical")).length =
          (al.filter (fun a => a.severity == "critical")).length) := by
  intro w0
  obtain ⟨s0, h0, ho0, hu0⟩ := hobs 0 (by decide)
  obtain ⟨s1, h1, ho1, hu1⟩ := hobs 1 (by decide)
  obtain ⟨s3, h3, ho3, hu3⟩ := hobs 3 (by decide)
  obtain ⟨s4, h4, ho4, hu4⟩ := hobs 4 (by decide)
  have hw1 : run_cycles obsseq 1 w0 =
      ⟨⟨[{ u0 with
            container_status := "restarting"
            restart_count := u0.restart_count + 1 }], oa,
         ev ++ [{ user_id := u0.id, container_id := u0.container_id,
                  event_type := "auto_restart",
                  details := some ("Attempt " ++ toString 1 ++ "/" ++
                    toString 3) }], al, sq⟩,
       [(u0.github_id, 1)], sent ++ [("warning", "Container Auto-Restarted")]⟩ := by
    simp [run_cycles, check_all_containers, handle_unhealthy_container,
      db_update_user, attempts_set, MAX_RESTART_ATTEMPTS, hact, ho0, hu0,
      List.lookup]
  have hw2 : run_cycles obsseq 2 w0 =
      ⟨⟨[{ u0 with
            container_status := "restarting"
            restart_count := u0.restart_count + 1 + 1 }], oa,
         ev ++ [{ user_id := u0.id, container_id := u0.container_id,
                  event_type := "auto_restart",
                  details := some ("Attempt " ++ toString 1 ++ "/" ++
                    toString 3) },
                { user_id := u0.id, container_id := u0.container_id,
                  event_type := "auto_restart",
                  details := some ("Attempt " ++ toString 2 ++ "/" ++
                    toString 3) }], al, sq⟩,
       [(u0.github_id, 2)], sent ++ [("warning", "Container Auto-Restarted"),
         ("warning", "Container Auto-Restarted")]⟩ := by
    show check_all_containers (obsseq 1) (run_cycles obsseq 1 w0) = _
    rw [hw1]
    simp [check_all_containers, handle_unhealthy_container,
      db_update_user, attempts_set, MAX_RESTART_ATTEMPTS, hact, ho1, hu1,
      List.lookup]
  have hw3 : run_cycles obsseq 3 w0 =
      ⟨⟨[{ u0 with
            container_status := "running"
            restart_count := u0.restart_count + 1 + 1 }], oa,
         ev ++ [{ user_id := u0.id, container_id := u0.container_id,
                  event_type := "auto_restart",
                  details := some ("Attempt " ++ toString 1 ++ "/" ++
                    toString 3) },
                { user_id := u0.id, container_id := u0.container_id,
                  event_type := "auto_restart",
                  details := some ("Attempt " ++ toString 2 ++ "/" ++
                    toString 3) }], al, sq⟩,
       [], sent ++ [("warning", "Container Auto-Restarted"),
         ("warning", "Container Auto-Restarted")]⟩ := by
    show check_all_containers (obsseq 2) (run_cycles obsseq 2 w0) = _
    rw [hw2]
    simp [check_all_containers, handle_healthy_container, attempts_del,
      db_update_user, hact, hh.1, hh.2, List.lookup]
  have hw4 : run_cycles obsseq 4 w0 =
      ⟨⟨[{ u0 with
            container_status := "restarting"
            restart_count := u0.restart_count + 1 + 1 + 1 }], oa,
         ev ++ [{ user_id := u0.id, container_id := u0.container_id,
                  event_type := "auto_restart",
                  details := some ("Attempt " ++ toString 1 ++ "/" ++
                    toString 3) },
                { user_id := u0.id, container_id := u0.container_id,
                  event_type := "auto_restart",
                  details := some ("Attempt " ++ toString 2 ++ "/" ++
                    toString 3) },
                { user_id := u0.id, container_id := u0.container_id,
                  event_type := "auto_restart",
                  details := some ("Attempt " ++ toString 1 ++ "/" ++
                    toString 3) }], al, sq⟩,
       [(u0.github_id, 1)], sent ++ [("warning", "Container Auto-Restarted"),
         ("warning", "Container Auto-Restarted"),
         ("warning", "Container Auto-Restarted")]⟩ := by
    show check_all_containers (obsseq 3) (run_cycles obsseq 3 w0) = _
    rw [hw3]
    simp [check_all_containers, handle_unhealthy_container,
      db_update_user, attempts_set, MAX_RESTART_ATTEMPTS, hact, ho3, hu3,
      List.lookup]
  have hw5 : run_cycles obsseq 5 w0 =
      ⟨⟨[{ u0 with
            container_status := "restarting"
            restart_count := u0.restart_count + 1 + 1 + 1 + 1 }], oa,
         ev ++ [{ user_id := u0.id, container_id := u0.container_id,
                  event_type := "auto_restart",
                  details := some ("Attempt " ++ toString 1 ++ "/" ++
                    toString 3) },
                { user_id := u0.id, container_id := u0.container_id,
                  event_type := "auto_restart",
                  details := some ("Attempt " ++ toString 2 ++ "/" ++
                    toString 3) },
                { user_id := u0.id, container_id := u0.container_id,
                  event_type := "auto_restart",
                  details := some ("Attempt " ++ toString 1 ++ "/" ++
                    toString 3) },
                { user_id := u0.id, container_id := u0.container_id,
                  event_type := "auto_restart",
                  details := some ("Attempt " ++ toString 2 ++ "/" ++
                    toString 3) }], al, sq⟩,
       [(u0.github_id, 2)], sent ++ [("warning", "Container Auto-Restarted"),
         ("warning", "Container Auto-Restarted"),
         ("warning", "Container Auto-Restarted"),
         ("warning", "Container Auto-Restarted")]⟩ := by
    show check_all_containers (obsseq 4) (run_cycles obsseq 4 w0) = _
    rw [hw4]
    simp [check_all_containers, handle_unhealthy_container,
      db_update_user, attempts_set, MAX_RESTART_ATTEMPTS, hact, ho4, hu4,
      List.lookup]
  refine ⟨by rw [show run_cycles obsseq MAX_RESTART_ATTEMPTS w0 = _ from hw3]; rfl, ?_⟩
  intro k hk
  have hk' : k ≤ 2 := hk
  interval_cases k
  · rw [show MAX_RESTART_ATTEMPTS + 0 = 3 from rfl]
    exact ⟨{ u0 with
        container_status := "running"
        restart_count := u0.restart_count + 1 + 1 },
      by rw [hw3], (by decide : ("running" : String) ≠ "error"), hact, by rw [hw3]⟩
  · rw [show MAX_RESTART_ATTEMPTS + 1 = 4 from rfl]
    exact ⟨{ u0 with
        container_status := "restarting"
        restart_count := u0.restart_count + 1 + 1 + 1 },
      by rw [hw4], (by decide : ("restarting" : String) ≠ "error"), hact, by rw [hw4]⟩
  · rw [show MAX_RESTART_ATTEMPTS + 2 = 5 from rfl]
    exact ⟨{ u0 with
        container_status := "restarting"
        restart_count := u0.restart_count + 1 + 1 + 1 + 1 },
      by rw [hw5], (by decide : ("restarting" : String) ≠ "error"), hact, by rw [hw5]⟩

/-- C3 witness: the recovery-reset theorem applied to a concrete tenant under
an observation sequence that is healthy exactly at cycle 2 — after two
failures and one healthy cycle the restart-attempt key is gone. -/
theorem watchdog_recovery_resets_counter_witness :
    List.lookup example_user.github_id
      (run_cycles obs_recovery MAX_RESTART_ATTEMPTS
        ⟨⟨[example_user], [], [], [], 2⟩, [], []⟩).restart_attempts = none :=
  (watchdog_recovery_resets_counter example_user [] [] [] 2 [] obs_recovery rfl
    (fun k hk => ⟨"exited", "unhealthy", by
        simp only [obs_recovery]
        rw [if_neg (by simpa using hk)], by decide⟩)
    (by constructor <;> rfl)).1

/-- C10: the watchdog main loop is a single sequential task — every completed
iteration is exactly one full health pass followed by the interval sleep, so
passes never overlap — but the orphan-pruning operation is never invoked by
the loop at any cadence: the loop body contains no call to the cleanup,
contradicting the announced every-ten-cycles cadence. -/
theorem watchdog_run_never_prunes :
    ∀ n : Nat,
      watchdog_run_ops n =
        WatchdogOp.send_startup_alert ::
          (List.replicate n [WatchdogOp.check_all,
            WatchdogOp.sleep_interval HEALTH_CHECK_INTERVAL]).flatten ∧
      (watchdog_run_ops n).count WatchdogOp.check_all = n ∧
      WatchdogOp.cleanup_orphans ∉ watchdog_run_ops n := by
  intro n
  refine ⟨rfl, ?_, ?_⟩
  · induction n with
    | zero => rfl
    | succ m ih =>
        rw [watchdog_run_ops, List.replicate_succ, List.flatten_cons]
        rw [watchdog_run_ops] at ih
        simp [watchdog_loop_body, List.count_cons, List.count_append] at ih ⊢
        omega
  · induction n with
    | zero => simp [watchdog_run_ops]
    | succ m ih =>
        rw [watchdog_run_ops, List.replicate_succ, List.flatten_cons]
        rw [watchdog_run_ops] at ih
        intro hmem
        rcases List.mem_cons.mp hmem with h | h
        · cases h
        · rcases List.mem_append.mp h with h2 | h2
          · rcases List.mem_cons.mp h2 with h3 | h3
            · cases h3
            · rcases List.mem_cons.mp h3 with h4 | h4
              · cases h4
              · cases h4
          · exact ih (List.mem_cons_of_mem _ h2)

/-- C10 witness: the loop-trace theorem evaluated after ten completed cycles
— the point at which the in-code comment promises an orphan cleanup that
never appears in the trace. -/
theorem watchdog_run_never_prunes_witness :
    watchdog_run_ops 10 =
      WatchdogOp.send_startup_alert ::
        (List.replicate 10 [WatchdogOp.check_all,
          WatchdogOp.sleep_interval HEALTH_CHECK_INTERVAL]).flatten ∧
    (watchdog_run_ops 10).count WatchdogOp.check_all = 10 :=
  ⟨(watchdog_run_never_prunes 10).1, (watchdog_run_never_prunes 10).2.1⟩
